import Mathlib

/-!
Verification of the resume-optimization web tool (`app.py`) and its
spreadsheet logging sidecar (`analytics.py`).

Python strings are modelled as `List Char` (sequences of Unicode code
points); machine text operations (`strip`, `rstrip`, slicing, `len`,
`in`, `endswith`, `lower`) are embedded below as executable Lean
functions.  Stateful/IO boundaries (the OpenAI client, Streamlit session
state, worksheet appends, OCR and PDF libraries) are modelled as
explicit oracle parameters or abstract per-document data.
-/

set_option autoImplicit false

namespace ResumeApp

/-- Model of Python `str` as a list of Unicode code points. -/
abbrev Str := List Char

/-- Whitespace predicate backing the models of Python `str.strip` /
`str.rstrip` (the ASCII whitespace characters; the inputs handled by
this development contain no exotic Unicode spaces). -/
def pyIsSpace (c : Char) : Bool :=
  c.toNat == 32 || (9 ≤ c.toNat && c.toNat ≤ 13)

/-- Model of Python `str.strip()`: drop whitespace on both ends. -/
def pyStrip (s : Str) : Str :=
  ((s.dropWhile pyIsSpace).reverse.dropWhile pyIsSpace).reverse

/-- Model of Python `str.rstrip()`: drop trailing whitespace. -/
def pyRstrip (s : Str) : Str :=
  (s.reverse.dropWhile pyIsSpace).reverse

/-- Model of the Python substring test `pat in hay` (`str.__contains__`). -/
def hasSub (hay pat : Str) : Bool :=
  if pat.isPrefixOf hay then true
  else
    match hay with
    | [] => false
    | _ :: t => hasSub t pat

/-- Model of Python `str.lower()` (ASCII case folding, as needed for the
filename extensions this code lowers). -/
def pyLower (s : Str) : Str :=
  s.map Char.toLower

/-- Model of Python `str.endswith(suf)`. -/
def pyEndsWith (s suf : Str) : Bool :=
  suf.isSuffixOf s

/-- Model of Python `str.splitlines()` restricted to the `\n` terminator
(the texts this program splits are produced by joining on `"\n"`):
split on each newline and drop a final empty remainder. -/
def splitNlAux (cur : Str) : Str → List Str
  | [] => if cur = [] then [] else [cur.reverse]
  | c :: rest =>
    if c = '\n' then cur.reverse :: splitNlAux [] rest
    else splitNlAux (c :: cur) rest

/-- Python `text.splitlines()` (newline-terminator model). -/
def pySplitlines (s : Str) : List Str :=
  splitNlAux [] s

/-- Model of Python `"\n".join(xs)`. -/
def joinNl (xs : List Str) : Str :=
  List.intercalate ['\n'] xs

-- ===================== Language detection (app.py 71-113) ==============

/-- Chinese hint keywords `_ZH_HINTS` (app.py line 78). -/
def ZH_HINTS : List Str :=
  ["教育", "项目", "工作经历", "个人信息", "技能", "职责", "成就", "成果",
   "性别", "出生", "地址", "电话", "邮箱"].map String.toList

/-- English hint keywords `_EN_HINTS` (app.py line 79). -/
def EN_HINTS : List Str :=
  ["Education", "Experience", "Project", "Work", "Skills", "Summary",
   "Achievements", "Responsibilities", "Email", "Phone", "Address"].map String.toList

/-- Count of characters with code point above 127 (`ord(ch) > 127`),
used by `_ratio_non_ascii` (app.py 81-85). -/
def nonAsciiCount (s : Str) : Nat :=
  (s.filter (fun c => 127 < c.toNat)).length

/-- Embedding of `_ratio_non_ascii` (app.py 81-85): `0.0` on the empty
string, else `non_ascii / max(1, len(text))` as an exact rational. -/
def ratio_non_ascii (s : Str) : ℚ :=
  if s = [] then 0 else (nonAsciiCount s : ℚ) / ((max 1 s.length : ℕ) : ℚ)

/-- Embedding of `_contains_any` (app.py 87-89): does any of the words
occur in the first 2000 characters of the text? -/
def contains_any (s : Str) (ws : List Str) : Bool :=
  ws.any (fun w => hasSub (s.take 2000) w)

/-- Embedding of `detect_lang_en_zh` (app.py 91-113).  The optional
`langdetect` step is modelled by the oracle argument `ld`:
`none` means the library is unavailable or its call raised, `some code`
is the language code it returned.  After that step the code falls back
to the non-ASCII ratio test (threshold 0.25), then the keyword hints,
then the default `"en"`. -/
def detect_lang_en_zh (ld : Option Str) (text : Str) : Str :=
  let t := pyStrip text
  let rest :=
    if ratio_non_ascii t > (1/4 : ℚ) then "zh".toList
    else
      let zhHit := contains_any t ZH_HINTS
      let enHit := contains_any t EN_HINTS
      if zhHit && !enHit then "zh".toList
      else if enHit && !zhHit then "en".toList
      else "en".toList
  match ld with
  | some code =>
    if ("zh".toList).isPrefixOf code then "zh".toList
    else if ("en".toList).isPrefixOf code then "en".toList
    else rest
  | none => rest

/-- Modelled from the spec (§4.2): the classifier the specification
describes — count code points in the CJK Unified Ideographs range
(U+4E00–U+9FFF), divide by `max 1 (total length)`, return `"zh"` exactly
when that fraction exceeds the configured threshold, else `"en"`. -/
def specClassify (threshold : ℚ) (text : Str) : Str :=
  let cjk := (text.filter (fun c => 0x4E00 ≤ c.toNat && c.toNat ≤ 0x9FFF)).length
  if (cjk : ℚ) / ((max 1 text.length : ℕ) : ℚ) > threshold then "zh".toList else "en".toList

-- ===================== Resume parsing (app.py 145-190) =================

/-- Abstraction of one uploaded file: its filename plus how the
document libraries interpret its raw bytes.
* `pdfPages`: `none` when `pdfplumber.open` raises on the bytes
  (malformed PDF); `some ps` gives each page's `extract_text()` result,
  with `[]` standing for a `None`/raising page (both are skipped by
  `read_pdf`).
* `docxParas`: `none` when `Document(...)` raises (malformed DOCX);
  `some qs` gives the paragraph texts in document order.
* `ocrPages`: `.error e` when the OCR pass itself raises
  (`convert_from_bytes` — poppler missing or rejecting the bytes — or
  `pytesseract.image_to_string` with no tesseract binary); `.ok ts`
  gives the per-page OCR outputs.  `app.py` has no try/except around
  the OCR path, so such an exception propagates out of `parse_resume`.
* `rawText`: `bytes.decode("utf-8", errors="ignore")`, which is total. -/
structure UploadedFile where
  name : Str
  pdfPages : Option (List Str)
  docxParas : Option (List Str)
  ocrPages : Except String (List Str)
  rawText : Str

/-- Embedding of `read_docx` (app.py 146-149): join the non-empty
stripped paragraph texts with newlines; raises iff the DOCX is
malformed. -/
def read_docx (f : UploadedFile) : Except String Str :=
  match f.docxParas with
  | none => .error "docx open failed"
  | some paras => .ok (joinNl ((paras.map pyStrip).filter (fun t => t ≠ [])))

/-- Embedding of `read_pdf` (app.py 151-161): join the non-empty
per-page texts with newlines; raises iff `pdfplumber.open` fails. -/
def read_pdf (f : UploadedFile) : Except String Str :=
  match f.pdfPages with
  | none => .error "pdf open failed"
  | some pages => .ok (joinNl (pages.filter (fun t => t ≠ [])))

/-- Embedding of `pdf_ocr` (app.py 163-172): empty when the OCR
libraries are unavailable (`_HAS_OCR = false`, the early return on line
164-165 touches no library); otherwise `convert_from_bytes` and
`pytesseract` run un-guarded and may raise (the `.error` case), else
the result is the newline-join of the non-empty per-page OCR texts. -/
def pdf_ocr (hasOCR : Bool) (f : UploadedFile) : Except String Str :=
  if !hasOCR then .ok []
  else
    match f.ocrPages with
    | .error e => .error e
    | .ok pages => .ok (joinNl (pages.filter (fun t => t ≠ [])))

/-- Embedding of `parse_resume` (app.py 174-190).  Dispatch on the
lowered filename suffix: `.pdf` runs direct extraction with the OCR
retry (OCR output replaces the direct text when the direct text is
empty or under 50 characters and the OCR text is non-empty and strictly
longer; the OCR call itself is un-guarded, so an OCR exception
propagates); `.docx` runs paragraph extraction; anything else decodes
the raw bytes as UTF-8 with errors ignored and tags the result `"txt"`
(the surrounding `try` never fires because that decode is total). -/
def parse_resume (hasOCR : Bool) (f : UploadedFile) (use_ocr : Bool) :
    Except String (Str × String) :=
  if pyEndsWith (pyLower f.name) (".pdf".toList) then
    match read_pdf f with
    | .error e => .error e
    | .ok txt =>
      if use_ocr && (txt = [] || txt.length < 50) then
        match pdf_ocr hasOCR f with
        | .error e => .error e
        | .ok txt_ocr =>
          .ok ((if txt_ocr ≠ [] && txt.length < txt_ocr.length then txt_ocr else txt), "pdf")
      else .ok (txt, "pdf")
  else if pyEndsWith (pyLower f.name) (".docx".toList) then
    match read_docx f with
    | .error e => .error e
    | .ok txt => .ok (txt, "docx")
  else
    .ok (f.rawText, "txt")

-- ============== Rich DOCX export (app.py 203-296) ======================

/-- One text run of a generated paragraph (python-docx `Run`). -/
structure DRun where
  text : Str
  bold : Bool
  italic : Bool
deriving DecidableEq, Repr

/-- The style a line is rendered with by
`_add_paragraph_by_markdown_line`. -/
inductive PStyle where
  | normal
  | heading1
  | heading2
  | listBullet
  | listNumber
deriving DecidableEq, Repr

/-- One paragraph of the generated document. -/
structure DPara where
  style : PStyle
  runs : List DRun
deriving DecidableEq, Repr

/-- The document model: python-docx byte layout is library-owned, so the
produced DOCX is abstracted as its ordered paragraph list. -/
abbrev DDoc := List DPara

/-- Tokens produced by the regex scan in `_add_markdown_runs`. -/
inductive MdTok where
  | text : Str → MdTok
  | md : Str → MdTok
deriving DecidableEq, Repr

/-- Search for the non-greedy body closed by `**` in the regex
`\*\*.*?\*\*` of `_add_markdown_runs` (app.py 226): the shortest
newline-free prefix of `cs` that is followed by two stars.  Returns the
body together with the remainder after the closing stars. -/
def findClose2 : Str → Option (Str × Str)
  | [] => none
  | c :: r =>
    if c = '*' ∧ r.head? = some '*' then some ([], r.tail)
    else if c = '\n' then none
    else (findClose2 r).map (fun p => (c :: p.1, p.2))

/-- Search for the non-greedy body closed by a single `*` in the regex
`\*.*?\*`. -/
def findClose1 : Str → Option (Str × Str)
  | [] => none
  | c :: r =>
    if c = '*' then some ([], r)
    else if c = '\n' then none
    else (findClose1 r).map (fun p => (c :: p.1, p.2))

/-- Leftmost match of the alternation `\*\*.*?\*\*|\*.*?\*` anchored at
the start of `cs`, in the order Python `re` tries it: the double-star
alternative first, then the single-star alternative.  Returns the
matched text and the remainder. -/
def mdMatchAt : Str → Option (Str × Str)
  | [] => none
  | c :: rest =>
    if c = '*' then
      let tryOne :=
        match findClose1 rest with
        | some (mid, r) => some ('*' :: (mid ++ ['*']), r)
        | none => none
      if rest.head? = some '*' then
        match findClose2 rest.tail with
        | some (mid, r) => some ('*' :: '*' :: (mid ++ ['*', '*']), r)
        | none => tryOne
      else tryOne
    else none

theorem findClose2_length {cs mid r : Str} (h : findClose2 cs = some (mid, r)) :
    r.length < cs.length := by
  induction cs generalizing mid r with
  | nil => simp [findClose2] at h
  | cons c t ih =>
    rw [findClose2] at h
    split at h
    · cases h
      have : t.tail.length ≤ t.length := by
        cases t <;> simp
      simpa using Nat.lt_succ_of_le this
    · split at h
      · cases h
      · cases hrec : findClose2 t with
        | none => rw [hrec] at h; cases h
        | some p =>
          rw [hrec] at h
          cases h
          exact Nat.lt_succ_of_lt (ih hrec)

theorem findClose1_length {cs mid r : Str} (h : findClose1 cs = some (mid, r)) :
    r.length < cs.length := by
  induction cs generalizing mid r with
  | nil => simp [findClose1] at h
  | cons c t ih =>
    rw [findClose1] at h
    split at h
    · cases h
      simp
    · split at h
      · cases h
      · cases hrec : findClose1 t with
        | none => rw [hrec] at h; cases h
        | some p =>
          rw [hrec] at h
          cases h
          exact Nat.lt_succ_of_lt (ih hrec)

theorem mdMatchAt_length {cs m r : Str} (h : mdMatchAt cs = some (m, r)) :
    r.length < cs.length := by
  match cs with
  | [] => simp [mdMatchAt] at h
  | c :: rest =>
    rw [mdMatchAt] at h
    split at h
    · simp only at h
      split at h
      · cases h2 : findClose2 rest.tail with
        | none =>
          rw [h2] at h
          cases h1 : findClose1 rest with
          | none => rw [h1] at h; cases h
          | some p =>
            rw [h1] at h
            cases h
            exact Nat.lt_succ_of_lt (findClose1_length h1)
        | some p =>
          rw [h2] at h
          cases h
          have ht : rest.tail.length ≤ rest.length := by
            cases rest <;> simp
          exact Nat.lt_succ_of_lt (Nat.lt_of_lt_of_le (findClose2_length h2) ht)
      · cases h1 : findClose1 rest with
        | none => rw [h1] at h; cases h
        | some p =>
          rw [h1] at h
          cases h
          exact Nat.lt_succ_of_lt (findClose1_length h1)
    · cases h

/-- The token scan of `_add_markdown_runs` (app.py 222-233):
`finditer` over the line, emitting the gap text between matches as
`text` tokens and each match as an `md` token. -/
def mdScanAux (acc : Str) (cs : Str) : List MdTok :=
  match hcs : cs with
  | [] => if acc = [] then [] else [.text acc.reverse]
  | c :: rest =>
    match hm : mdMatchAt (c :: rest) with
    | some (m, r) =>
      (if acc = [] then [] else [MdTok.text acc.reverse]) ++
        MdTok.md m :: mdScanAux [] r
    | none => mdScanAux (c :: acc) rest
termination_by cs.length
decreasing_by
  · exact mdMatchAt_length hm
  · simp

/-- Python slice `s[a:-b]` for non-negative `a`, `b` (used as `val[2:-2]`
and `val[1:-1]`). -/
def pySliceDrop (a b : Nat) (s : Str) : Str :=
  (s.drop a).take (s.length - (a + b))

/-- Run construction for one `md` token (app.py 235-246): `**…**`
becomes a bold run of the slice `val[2:-2]`, else `*…*` becomes an
italic run of `val[1:-1]`, else a plain run. -/
def runOfMd (val : Str) : DRun :=
  if ("**".toList).isPrefixOf val ∧ ("**".toList).isSuffixOf val then
    ⟨pySliceDrop 2 2 val, true, false⟩
  else if (['*']).isPrefixOf val ∧ (['*']).isSuffixOf val then
    ⟨pySliceDrop 1 1 val, false, true⟩
  else ⟨val, false, false⟩

/-- Embedding of `_add_markdown_runs` (app.py 222-246): the runs added
to a paragraph for one line of markdown text. -/
def add_markdown_runs (text : Str) : List DRun :=
  (mdScanAux [] text).map fun t =>
    match t with
    | .text v => ⟨v, false, false⟩
    | .md v => runOfMd v

/-- ASCII decimal digit (model of regex `\d` for the inputs at hand). -/
def isDigitCh (c : Char) : Bool :=
  48 ≤ c.toNat && c.toNat ≤ 57

/-- Match of the unordered-list regex `^\s*[-•·]\s+` (app.py 268):
returns the text left after `re.sub` removes the matched prefix. -/
def bulletBody (s : Str) : Option Str :=
  match s.dropWhile pyIsSpace with
  | [] => none
  | c :: r =>
    if c = '-' ∨ c = '•' ∨ c = '·' then
      match r with
      | [] => none
      | d :: r2 => if pyIsSpace d then some ((d :: r2).dropWhile pyIsSpace) else none
    else none

/-- Match of the ordered-list regex `^\s*\d+\.\s+` (app.py 275):
returns the text left after `re.sub` removes the matched prefix. -/
def numberBody (s : Str) : Option Str :=
  let t := s.dropWhile pyIsSpace
  let ds := t.takeWhile isDigitCh
  if ds = [] then none
  else
    match t.drop ds.length with
    | [] => none
    | c :: r =>
      if c = '.' then
        match r with
        | [] => none
        | d :: r2 => if pyIsSpace d then some ((d :: r2).dropWhile pyIsSpace) else none
      else none

/-- Embedding of `_add_paragraph_by_markdown_line` (app.py 248-283):
`rstrip` the line; empty lines become an empty paragraph; `## ` / `# `
prefixes become bold headings of the stripped remainder; bullet and
numbered list prefixes are removed and the stripped item is rendered
through the markdown-run scanner; anything else is a plain paragraph of
markdown runs. -/
def add_paragraph_by_markdown_line (line : Str) : DPara :=
  let s := pyRstrip line
  if s = [] then ⟨.normal, []⟩
  else if ("## ".toList).isPrefixOf s then ⟨.heading2, [⟨pyStrip (s.drop 3), true, false⟩]⟩
  else if ("# ".toList).isPrefixOf s then ⟨.heading1, [⟨pyStrip (s.drop 2), true, false⟩]⟩
  else
    match bulletBody s with
    | some item => ⟨.listBullet, add_markdown_runs (pyStrip item)⟩
    | none =>
      match numberBody s with
      | some item => ⟨.listNumber, add_markdown_runs (pyStrip item)⟩
      | none => ⟨.normal, add_markdown_runs s⟩

/-- Embedding of `export_docx_rich` (app.py 285-296).  The DOCX byte
serialization is owned by python-docx, so the produced document is
modelled as its paragraph list: an optional level-1 heading for the
title, then one paragraph per `splitlines()` line.  (`_set_default_fonts`
only sets fonts and adds no text, so it does not appear in the model;
both call sites pass `title=None`.) -/
def export_docx_rich (text : Str) (title : Option Str) : DDoc :=
  (match title with
   | some t => [⟨PStyle.heading1, [⟨t, false, false⟩]⟩]
   | none => []) ++
  (pySplitlines text).map add_paragraph_by_markdown_line

/-- Decoding one produced paragraph back to plain text: the
concatenation of its run texts (python-docx `Paragraph.text`). -/
def paraText (p : DPara) : Str :=
  (p.runs.map DRun.text).flatten

/-- Decoding the produced document back into its plain paragraph
lines. -/
def docLines (d : DDoc) : List Str :=
  d.map paraText

/-- A Latin letter (`A`–`Z`, `a`–`z`). -/
def isLatinLetter (c : Char) : Bool :=
  (65 ≤ c.toNat && c.toNat ≤ 90) || (97 ≤ c.toNat && c.toNat ≤ 122)

/-- A CJK Unified Ideograph (U+4E00–U+9FFF). -/
def isCJKChar (c : Char) : Bool :=
  0x4E00 ≤ c.toNat && c.toNat ≤ 0x9FFF

-- ============== Simple PDF export (app.py 298-319) =====================

/-- One millimetre in PDF points, exactly (`reportlab.lib.units.mm`,
`72 / 25.4`). -/
def mmQ : ℚ := 360 / 127

/-- A4 page height in points (`reportlab.lib.pagesizes.A4`, 297 mm). -/
def pageH : ℚ := 297 * mmQ

/-- The drawing loop of `export_pdf_simple` (app.py 310-316): walk the
lines keeping the cursor `y`; when `y` has passed the bottom margin,
flush the current page (`showPage`) and reset; draw `line[:110]` and
advance 6 mm.  Pages are modelled as the lists of strings drawn on
them, in order. -/
def pdfLoop (ls : List Str) (y : ℚ) (cur : List Str) : List (List Str) :=
  match ls with
  | [] => [cur.reverse]
  | l :: rest =>
    if y < 20 * mmQ then
      cur.reverse :: pdfLoop rest (pageH - 20 * mmQ - 6 * mmQ) [l.take 110]
    else
      pdfLoop rest (y - 6 * mmQ) (l.take 110 :: cur)

/-- Embedding of `export_pdf_simple` (app.py 298-319): `none` models the
`b""` returned when reportlab is unavailable; otherwise the PDF is
modelled as its pages of drawn strings.  A title, when given, is drawn
in full on the first page and moves the cursor 12 mm down. -/
def export_pdf_simple (hasPDF : Bool) (text : Str) (title : Option Str) :
    Option (List (List Str)) :=
  if !hasPDF then none
  else
    let y0 := pageH - 20 * mmQ
    match title with
    | some t => some (pdfLoop (pySplitlines text) (y0 - 12 * mmQ) [t])
    | none => some (pdfLoop (pySplitlines text) y0 [])

/-- Independent page-chunking description used to state what the drawing
loop produces: fill consecutive pages with `n` lines each. -/
def pagesOf (n : Nat) (xs : List Str) : List (List Str) :=
  if xs.length ≤ n ∨ n = 0 then [xs]
  else xs.take n :: pagesOf n (xs.drop n)
termination_by xs.length
decreasing_by
  simp only [List.length_drop]
  omega

/-- Counter version of the drawing loop: the cursor position after `k`
lines on the current page is `pageH - 20mm - 6mm·k`, so the overflow
test `y < 20mm` is the test `43 ≤ k` (A4 is 297 mm tall, leaving
window for exactly 43 six-millimetre lines between the margins). -/
def pdfLoopN (ls : List Str) (k : Nat) (cur : List Str) : List (List Str) :=
  match ls with
  | [] => [cur.reverse]
  | l :: rest =>
    if 43 ≤ k then cur.reverse :: pdfLoopN rest 1 [l.take 110]
    else pdfLoopN rest (k + 1) (l.take 110 :: cur)

-- ===== Prompt templates and generation handler (app.py 115-143, 389-438)

/-- `EN_RESUME_PROMPT` (app.py 116-122). -/
def EN_RESUME_PROMPT : String :=
  "You are an expert resume editor. KEEP THE OUTPUT IN ENGLISH.\nRewrite the resume content to be concise, quantified and aligned to the target JD.\n- Use strong action verbs and measurable outcomes\n- Keep neutral tone for UK graduate/entry roles\n- Do NOT invent experience\nReturn ONLY the optimized resume text.\n"

/-- `ZH_RESUME_PROMPT` (app.py 123-128). -/
def ZH_RESUME_PROMPT : String :=
  "你是资深简历优化顾问。请全程使用【中文】输出，并保持专业、精炼、可量化、与目标JD高度匹配。\n- 使用动词开头与量化结果\n- 不新增或杜撰经历\n- 不要输出解释或客套话\n只返回【优化后的简历正文】。\n"

/-- `EN_CL_PROMPT` (app.py 129-133). -/
def EN_CL_PROMPT : String :=
  "Write a concise one-page UK-style cover letter in ENGLISH tailored to the target JD and the resume.\n- Clear structure: opening, 2–3 achievements aligned to JD, closing\n- Measurable results, no fluff, no repetition of resume\nReturn ONLY the letter text.\n"

/-- `ZH_CL_PROMPT` (app.py 134-138). -/
def ZH_CL_PROMPT : String :=
  "请用【中文】撰写一页内的求职信，结合简历与目标JD：\n- 结构清晰：开场、2–3条与JD高度匹配的量化成果、结尾\n- 专业不堆词，不重复简历原句\n只返回求职信正文。\n"

/-- Embedding of `get_prompts` (app.py 140-143): the resume template,
cover-letter template and system instruction for the language. -/
def get_prompts (lang : String) : String × String × String :=
  if lang = "zh" then (ZH_RESUME_PROMPT, ZH_CL_PROMPT, "务必使用中文输出，且不要混用英文。")
  else (EN_RESUME_PROMPT, EN_CL_PROMPT, "Always respond in English.")

/-- Python `s.strip()` lifted to Lean `String`. -/
def pyStripS (s : String) : String :=
  ⟨pyStrip s.data⟩

/-- One chat message sent to the completion endpoint. -/
structure Message where
  role : String
  content : String
deriving DecidableEq, Repr

/-- Observable effects of one run of the generation handler.
`operatorAlert` is modelled from the spec (§7: a one-time-per-session
operator-channel alert on quota errors); `app.py` contains no code that
emits it, and the constructor exists so its absence can be stated. -/
inductive Effect where
  | modelCall : List Message → Effect
  | showError : String → Effect
  | operatorAlert : String → Effect
deriving DecidableEq

/-- The inputs of one press of the generate button (sidebar preferences
plus the extracted texts), app.py 337-357 and 389-395. -/
structure GenRequest where
  genCl : Bool
  lang : String
  pills : List String
  enhance : String
  jd : String
  resumeText : String

/-- Python `x or ''` for strings: the empty string when falsy. -/
def pyOrEmpty (s : String) : String :=
  if s = "" then "" else s

/-- Embedding of the preference-line construction (app.py 399-406). -/
def buildPreferLine (lang : String) (pills : List String) (enhanceText : String) : String :=
  let prefs := if pills = [] then "" else String.intercalate ", " pills
  let addon := if prefs = "" then "" else if lang = "zh" then "；" else "; "
  let enhance := pyStripS enhanceText
  let prefSentence := pyStripS (prefs ++ addon ++ enhance)
  if lang = "en" then
    "\n\nPreference: please emphasize " ++
      (if prefSentence = "" then "impact & clarity" else prefSentence) ++ "."
  else
    "\n\n偏好：请更突出 " ++
      (if prefSentence = "" then "数据驱动、可量化、关键词契合" else prefSentence) ++ "。"

/-- The final user message carrying the resume and JD texts
(app.py 412). -/
def resumeUserContent (jd resumeText : String) : String :=
  "Resume:\n" ++ resumeText ++ "\n\nTarget JD:\n" ++ pyOrEmpty jd

/-- Embedding of the message list built for the resume-optimization call
(app.py 409-413). -/
def buildMessages (lang : String) (pills : List String) (enhance jd resumeText : String) :
    List Message :=
  let ps := get_prompts lang
  [⟨"system", ps.2.2⟩,
   ⟨"user", ps.1 ++ buildPreferLine lang pills enhance⟩,
   ⟨"user", resumeUserContent jd resumeText⟩]

/-- Embedding of the message list built for the cover-letter call
(app.py 423-427); its resume block carries the freshly optimized
resume. -/
def buildClMessages (lang : String) (jd optResume : String) : List Message :=
  let ps := get_prompts lang
  [⟨"system", ps.2.2⟩,
   ⟨"user", ps.2.1⟩,
   ⟨"user", resumeUserContent jd optResume⟩]

/-- The model oracle stands for one `client.chat.completions.create`
round trip: `.ok s` is the raw message content (already `or ""`
normalized), `.error e` is the text of whatever exception the call
raised — network failure, non-success status, or the
`st.stop`/`st.error` path of `get_openai_client` when no API key is
configured (Streamlit's stop exception derives from `Exception` and is
caught by the handler's bare `except Exception`). -/
abbrev ModelOracle := List Message → Except String String

/-- Embedding of `call_openai` (app.py 193-201): one completion call,
stripping the returned content. -/
def call_openai (model : ModelOracle) (msgs : List Message) : Except String String :=
  (model msgs).map pyStripS

/-- The outcome of one run of the generation handler: the two result
texts and the trace of observable effects, in order. -/
structure GenOutcome where
  optResume : String
  optCl : String
  trace : List Effect

/-- Embedding of the generation handler (app.py 395-432): build the
resume messages and call the model, catching any exception into an
error banner and an empty result; then, only when the cover-letter box
is ticked and the optimized resume is non-empty, make the second call
the same way. -/
def runGeneration (model : ModelOracle) (req : GenRequest) : GenOutcome :=
  let msgs := buildMessages req.lang req.pills req.enhance req.jd req.resumeText
  match call_openai model msgs with
  | .error e =>
    { optResume := "", optCl := "", trace := [.modelCall msgs, .showError ("调用模型失败：" ++ e)] }
  | .ok optResume =>
    if req.genCl && optResume != "" then
      let clMsgs := buildClMessages req.lang req.jd optResume
      match call_openai model clMsgs with
      | .error e =>
        { optResume := optResume, optCl := "",
          trace := [.modelCall msgs, .modelCall clMsgs, .showError ("生成求职信失败：" ++ e)] }
      | .ok optCl =>
        { optResume := optResume, optCl := optCl,
          trace := [.modelCall msgs, .modelCall clMsgs] }
    else
      { optResume := optResume, optCl := "", trace := [.modelCall msgs] }

/-- The slice of `st.session_state` the handler writes (app.py 321-329,
434-438). -/
structure SessState where
  optResume : String
  optCl : String

/-- One request-handling step including the session-state writes
(app.py 434-438): non-empty results are stored, empty ones leave the
previous stored result in place. -/
def stepSession (model : ModelOracle) (st : SessState) (req : GenRequest) :
    SessState × List Effect :=
  let o := runGeneration model req
  let st1 := if o.optResume != "" then { st with optResume := o.optResume } else st
  let st2 := if req.genCl && o.optCl != "" then { st1 with optCl := o.optCl } else st1
  (st2, o.trace)

/-- A whole session: the requests of one browser session handled in
order, traces concatenated. -/
def runSession (model : ModelOracle) (st : SessState) : List GenRequest → SessState × List Effect
  | [] => (st, [])
  | r :: rs =>
    let p := stepSession model st r
    let q := runSession model p.1 rs
    (q.1, p.2 ++ q.2)

/-- Count of operator alerts in an effect trace. -/
def countAlerts (tr : List Effect) : Nat :=
  (tr.filter (fun e => match e with | .operatorAlert _ => true | _ => false)).length

/-- Count of model invocations in an effect trace. -/
def countModelCalls (tr : List Effect) : Nat :=
  (tr.filter (fun e => match e with | .modelCall _ => true | _ => false)).length

/-- Modelled from the spec (§7): quota-class error classification by
substring match (`"insufficient_quota"`); `app.py` performs no such
classification, the definition only serves to state claims about
quota-class failures. -/
def isQuotaMsg (s : String) : Bool :=
  hasSub s.data ("insufficient_quota".data)

-- ============== Analytics logging sinks (analytics.py 123-184) =========

/-- One cell of an appended spreadsheet row. -/
inductive Cell where
  | str : String → Cell
  | int : Int → Cell
deriving DecidableEq

/-- The append oracle stands for `worksheet.append_row`: `.error e`
models the call raising. -/
abbrev AppendFn := List Cell → Except String Unit

/-- Embedding of `log_event` (analytics.py 125-137).  `ws` is the
`events` worksheet from `_get_sheet_client` — `none` covers the library
missing, the credentials/sheet-id missing or malformed, and any
initialization failure, all of which that (fully try/except-guarded)
helper turns into `None`.  The return type makes a propagating Python
exception representable as `.error`; the body catches an append failure
into a sidebar warning, listed in the result. -/
def log_event (ws : Option AppendFn) (ts sid event_type : String)
    (user_email : Option String) (extra_json : String) :
    Except String (List String) :=
  match ws with
  | none => .ok []
  | some append =>
    match append [.str ts, .str sid, .str event_type,
                  .str (user_email.getD ""), .str extra_json] with
    | .ok _ => .ok []
    | .error e => .ok ["⚠️ 写入事件日志失败：" ++ e]

/-- Embedding of `log_feedback` (analytics.py 140-151). -/
def log_feedback (ws : Option AppendFn) (ts sid : String) (rating : Int)
    (comment contact : String) : Except String (List String) :=
  match ws with
  | none => .ok []
  | some append =>
    match append [.str ts, .str sid, .int rating, .str comment, .str contact] with
    | .ok _ => .ok []
    | .error e => .ok ["⚠️ 写入反馈失败：" ++ e]

/-- Embedding of `log_error` (analytics.py 154-167); its `except` clause
is a bare `pass`, so failures produce no warning either. -/
def log_error (ws : Option AppendFn) (ts sid error_message context_json : String) :
    Except String (List String) :=
  match ws with
  | none => .ok []
  | some append =>
    match append [.str ts, .str sid, .str error_message, .str context_json] with
    | .ok _ => .ok []
    | .error _ => .ok []

/-- Embedding of `log_quota` (analytics.py 170-184); bare `pass` on
failure. -/
def log_quota (ws : Option AppendFn) (ts sid event_type : String)
    (input_tokens output_tokens : Int) : Except String (List String) :=
  match ws with
  | none => .ok []
  | some append =>
    match append [.str ts, .str sid, .str event_type,
                  .int input_tokens, .int output_tokens] with
    | .ok _ => .ok []
    | .error _ => .ok []

-- ======================================================================
-- Theorems
-- ======================================================================

/-- The exact-rational quarter-threshold test as an integer
comparison. -/
theorem quarter_div_iff (a b : ℕ) (hb : 0 < b) :
    ((a : ℚ) / (b : ℚ) > 1/4) ↔ b < 4 * a := by
  rw [gt_iff_lt, lt_div_iff₀ (by exact_mod_cast hb)]
  constructor
  · intro h
    have : (b : ℚ) < 4 * (a : ℚ) := by linarith
    exact_mod_cast this
  · intro h
    have : (b : ℚ) < 4 * (a : ℚ) := by exact_mod_cast h
    linarith

/-- The `_ratio_non_ascii … > 0.25` test of `detect_lang_en_zh`, as an
integer comparison. -/
theorem ratio_non_ascii_gt_quarter (s : Str) :
    (ratio_non_ascii s > (1/4 : ℚ)) ↔ max 1 s.length < 4 * nonAsciiCount s := by
  unfold ratio_non_ascii
  by_cases h : s = []
  · subst h
    simp [nonAsciiCount]
  · rw [if_neg h, quarter_div_iff _ _ (Nat.lt_of_lt_of_le Nat.zero_lt_one (le_max_left _ _))]

-- ===== C10 =====

/-- Geometry of the drawing loop: the cursor after `k` drawn lines is
below the bottom margin exactly when `k` has reached 43. -/
theorem pdf_y_iff (k : ℕ) :
    ((pageH - 20 * mmQ) - 6 * (k : ℚ) * mmQ < 20 * mmQ) ↔ 43 ≤ k := by
  simp only [pageH, mmQ]
  constructor
  · intro h
    by_contra hk
    push_neg at hk
    have hq : (k : ℚ) ≤ 42 := by
      exact_mod_cast Nat.le_of_lt_succ hk
    linarith
  · intro h
    have hq : (43 : ℚ) ≤ (k : ℚ) := by exact_mod_cast h
    linarith

/-- The rational-cursor drawing loop is the counter loop. -/
theorem pdfLoop_eq_pdfLoopN (ls : List Str) : ∀ (k : ℕ) (cur : List Str), k ≤ 43 →
    pdfLoop ls ((pageH - 20 * mmQ) - 6 * (k : ℚ) * mmQ) cur = pdfLoopN ls k cur := by
  induction ls with
  | nil => intro k cur hk; rfl
  | cons l rest ih =>
    intro k cur hk
    unfold pdfLoop pdfLoopN
    by_cases h43 : 43 ≤ k
    · rw [if_pos ((pdf_y_iff k).mpr h43), if_pos h43]
      have hy : pageH - 20 * mmQ - 6 * mmQ = (pageH - 20 * mmQ) - 6 * ((1 : ℕ) : ℚ) * mmQ := by
        push_cast
        ring
      rw [hy, ih 1 [l.take 110] (by omega)]
    · rw [if_neg (fun hc => h43 ((pdf_y_iff k).mp hc)), if_neg h43]
      have hy : (pageH - 20 * mmQ) - 6 * (k : ℚ) * mmQ - 6 * mmQ =
          (pageH - 20 * mmQ) - 6 * ((k + 1 : ℕ) : ℚ) * mmQ := by
        push_cast
        ring
      rw [hy, ih (k + 1) (l.take 110 :: cur) (by omega)]

/-- The counter loop fills the current page up to 43 lines and chunks
the rest into 43-line pages, truncating every line to 110
characters. -/
theorem pdfLoopN_eq_pages (ls : List Str) : ∀ (k : ℕ) (cur : List Str),
    cur.length = k → k ≤ 43 →
    pdfLoopN ls k cur =
      if ls.length ≤ 43 - k then [cur.reverse ++ ls.map (fun l => l.take 110)]
      else (cur.reverse ++ (ls.take (43 - k)).map (fun l => l.take 110)) ::
        pagesOf 43 ((ls.drop (43 - k)).map (fun l => l.take 110)) := by
  induction ls with
  | nil =>
    intro k cur hlen hk
    simp [pdfLoopN]
  | cons l rest ih =>
    intro k cur hlen hk
    by_cases h43 : 43 ≤ k
    · have hk43 : k = 43 := le_antisymm hk h43
      subst hk43
      rw [pdfLoopN, if_pos h43]
      rw [if_neg (show ¬ ((l :: rest).length ≤ 43 - 43) by simp)]
      rw [show (43 : ℕ) - 43 = 0 from rfl]
      simp only [List.take_zero, List.map_nil, List.append_nil, List.drop_zero]
      rw [ih 1 [l.take 110] rfl (by omega)]
      conv_rhs => rw [pagesOf]
      simp only [List.length_map, List.length_cons, List.map_cons]
      by_cases hr : rest.length ≤ 42
      · rw [if_pos (show rest.length ≤ 43 - 1 by omega), if_pos (Or.inl (by omega))]
        simp
      · rw [if_neg (show ¬ rest.length ≤ 43 - 1 by omega), if_neg (by omega)]
        rw [show (43 : ℕ) - 1 = 42 from rfl,
            show (43 : ℕ) = 42 + 1 from rfl,
            List.take_succ_cons, List.drop_succ_cons]
        simp [List.map_take, List.map_drop]
    · rw [pdfLoopN, if_neg h43]
      rw [ih (k + 1) (l.take 110 :: cur) (by simp [hlen]) (by omega)]
      have hsub : 43 - (k + 1) = 42 - k := by omega
      have hsub2 : 43 - k = (42 - k) + 1 := by omega
      rw [hsub, hsub2]
      by_cases hr : rest.length ≤ 42 - k
      · rw [if_pos hr, if_pos (show (l :: rest).length ≤ (42 - k) + 1 by simp; omega)]
        simp
      · rw [if_neg hr, if_neg (show ¬ ((l :: rest).length ≤ (42 - k) + 1) by simp; omega)]
        rw [List.take_succ_cons, List.drop_succ_cons]
        simp

/-- Claim C10: the PDF packager draws exactly the first 110 characters
of each line — anything beyond the 110th character of a line is
silently dropped, never wrapped onto a following line — and starts a
new page only on vertical overflow: the produced pages are precisely
the 110-character-truncated lines chunked into full 43-line pages (the
A4 capacity between the 20 mm margins at 6 mm per line). -/
theorem C10_theorem (text : Str) :
    export_pdf_simple true text none =
      some (pagesOf 43 ((pySplitlines text).map (fun l => l.take 110))) := by
  unfold export_pdf_simple
  simp only [Bool.not_true, Bool.false_eq_true, if_false]
  have h0 : pageH - 20 * mmQ = (pageH - 20 * mmQ) - 6 * ((0 : ℕ) : ℚ) * mmQ := by
    push_cast
    ring
  rw [h0, pdfLoop_eq_pdfLoopN _ 0 [] (by omega),
      pdfLoopN_eq_pages _ 0 [] rfl (by omega)]
  conv_rhs => rw [pagesOf]
  simp only [List.length_map, Nat.sub_zero, List.drop_zero]
  by_cases hlen : (pySplitlines text).length ≤ 43
  · rw [if_pos hlen, if_pos (Or.inl hlen)]
    simp
  · rw [if_neg hlen, if_neg (by omega)]
    simp [List.map_take, List.map_drop]


/-- Helper for C4 and C6: the `.pdf` branch of `parse_resume` written as one
equation over an abstract direct-extraction result. -/
theorem parse_resume_pdf (hasOCR u : Bool) (f : UploadedFile) (direct : Str)
    (hname : pyEndsWith (pyLower f.name) (".pdf".toList) = true)
    (hd : read_pdf f = .ok direct) :
    parse_resume hasOCR f u =
      if u && (direct = [] || direct.length < 50) then
        match pdf_ocr hasOCR f with
        | .error e => .error e
        | .ok txt_ocr =>
          .ok ((if txt_ocr ≠ [] && direct.length < txt_ocr.length then txt_ocr else direct),
            "pdf")
      else .ok (direct, "pdf") := by
  unfold parse_resume
  rw [hname, hd]
  rfl

-- ===== C1 =====

/-- Claim C1 (counterexample): the claim says a failing model invocation
still yields a non-empty fallback result with a `usedFallback` flag; in
`app.py` the handler catches the exception, shows an error and leaves
`opt_resume` empty — at this concrete failing request the produced
resume text is the empty string (and `GenOutcome` carries no fallback
output at all). -/
theorem C1_counterexample :
    (runGeneration (fun _ => .error "the model is unreachable")
      ⟨true, "en", ["业务影响"], "数据驱动、可量化、关键词契合", "", "My resume"⟩).optResume = "" :=
  rfl

/-- Claim C1 (amended): whenever the model invocation fails — including
the missing-credential path, whose `st.stop` exception the handler's
bare `except Exception` also catches — the handler produces an *empty*
resume text and an empty cover letter and shows an error banner; no
fallback text is generated and no `usedFallback` flag exists. -/
theorem C1_theorem (model : ModelOracle) (req : GenRequest) (e : String)
    (h : model (buildMessages req.lang req.pills req.enhance req.jd req.resumeText) =
      .error e) :
    (runGeneration model req).optResume = "" ∧
    (runGeneration model req).optCl = "" ∧
    (runGeneration model req).trace =
      [.modelCall (buildMessages req.lang req.pills req.enhance req.jd req.resumeText),
       .showError ("调用模型失败：" ++ e)] := by
  have hc : call_openai model
      (buildMessages req.lang req.pills req.enhance req.jd req.resumeText) = .error e := by
    simp [call_openai, h, Except.map]
  unfold runGeneration
  simp [hc]

/-- Claim C1 witness: the amended theorem applied to a concrete
always-failing oracle. -/
theorem C1_witness :
    ((fun _ => Except.error "no API key" : ModelOracle)
        (buildMessages "en" [] "" "" "My resume") = .error "no API key") ∧
    ((runGeneration (fun _ => .error "no API key") ⟨true, "en", [], "", "", "My resume"⟩).optResume = "" ∧
     (runGeneration (fun _ => .error "no API key") ⟨true, "en", [], "", "", "My resume"⟩).optCl = "" ∧
     (runGeneration (fun _ => .error "no API key") ⟨true, "en", [], "", "", "My resume"⟩).trace =
       [.modelCall (buildMessages "en" [] "" "" "My resume"),
        .showError ("调用模型失败：" ++ "no API key")]) :=
  ⟨rfl, C1_theorem (fun _ => .error "no API key") ⟨true, "en", [], "", "", "My resume"⟩
    "no API key" rfl⟩

-- ===== C2 =====

/-- Claim C2 (counterexample): the claim says a session whose model
calls fail with a quota-class message records exactly one operator
alert; in this session four consecutive requests all fail with an
`insufficient_quota` message and zero operator alerts are emitted
(`app.py` has no alerting code at all). -/
theorem C2_counterexample :
    countAlerts (runSession (fun _ => .error "Error code: 429 - insufficient_quota")
      ⟨"", ""⟩ (List.replicate 4 ⟨true, "en", [], "", "", "resume"⟩)).2 = 0 ∧
    isQuotaMsg "Error code: 429 - insufficient_quota" = true := by
  constructor
  · rfl
  · decide

/-- Helper for C2: a single handler run emits no operator alert,
whatever the model does. -/
theorem alerts_runGeneration (model : ModelOracle) (req : GenRequest) :
    countAlerts (runGeneration model req).trace = 0 := by
  unfold runGeneration
  cases h : call_openai model
      (buildMessages req.lang req.pills req.enhance req.jd req.resumeText) with
  | error e => simp [h, countAlerts]
  | ok s =>
    simp only [h]
    split
    · cases h2 : call_openai model (buildClMessages req.lang req.jd s) <;>
        simp [h2, countAlerts]
    · simp [countAlerts]

/-- Claim C2 (amended): no operator alert is ever emitted — quota-class
failures included: over any session, any model behavior and any request
sequence, the number of operator alerts in the trace is zero, not one
per quota-failing session. -/
theorem C2_theorem (model : ModelOracle) (st : SessState) (reqs : List GenRequest) :
    countAlerts (runSession model st reqs).2 = 0 := by
  induction reqs generalizing st with
  | nil => simp [runSession, countAlerts]
  | cons r rs ih =>
    simp only [runSession]
    have hsplit : countAlerts ((stepSession model st r).2 ++
        (runSession model (stepSession model st r).1 rs).2) =
        countAlerts (stepSession model st r).2 +
          countAlerts (runSession model (stepSession model st r).1 rs).2 := by
      simp [countAlerts, List.filter_append]
    rw [hsplit]
    have h1 : countAlerts (stepSession model st r).2 = 0 := by
      simp [stepSession, alerts_runGeneration]
    rw [h1, ih]

-- ===== C3 =====

/-- Claim C3 (counterexample): the claim says the classifier returns
`zh` exactly when the CJK-Unified-Ideographs fraction exceeds the
configured threshold (0.25 in this code).  On `"ééé"` — no CJK
character at all, CJK fraction 0, so the claimed rule (embodied by
`specClassify`) says `en` — `detect_lang_en_zh` nevertheless returns
`zh`, because the code actually tests the fraction of *non-ASCII*
characters (`ord(ch) > 127`). -/
theorem C3_counterexample :
    detect_lang_en_zh none ("ééé".toList) = "zh".toList ∧
    ¬ (((("ééé".toList).filter (fun c => 0x4E00 ≤ c.toNat && c.toNat ≤ 0x9FFF)).length : ℚ)
        / ((max 1 ("ééé".toList).length : ℕ) : ℚ) > (1/4 : ℚ)) ∧
    specClassify (1/4) ("ééé".toList) = "en".toList := by
  refine ⟨?_, ?_, ?_⟩
  · have hcond : ratio_non_ascii (pyStrip ("ééé".toList)) > (1/4 : ℚ) := by
      rw [ratio_non_ascii_gt_quarter]
      decide
    simp only [detect_lang_en_zh, hcond, if_true]
  · rw [quarter_div_iff _ _ (Nat.lt_of_lt_of_le Nat.zero_lt_one (le_max_left _ _))]
    decide
  · have hcond : ¬ (((("ééé".toList).filter
        (fun c => 0x4E00 ≤ c.toNat && c.toNat ≤ 0x9FFF)).length : ℚ)
        / ((max 1 ("ééé".toList).length : ℕ) : ℚ) > (1/4 : ℚ)) := by
      rw [quarter_div_iff _ _ (Nat.lt_of_lt_of_le Nat.zero_lt_one (le_max_left _ _))]
      decide
    simp only [specClassify, hcond, if_false]

/-- Claim C3 (amended): with the optional `langdetect` step unavailable,
the classifier returns `zh` exactly when the fraction of *non-ASCII*
characters of the stripped input exceeds 0.25 (stated as the exact
integer comparison `max 1 len < 4 * count`), or when that test fails
but a Chinese hint keyword occurs in the first 2000 characters and no
English hint does; in every other case — the empty string included — it
returns `en`.  It is a pure, deterministic function of its input. -/
theorem C3_theorem (text : Str) :
    (detect_lang_en_zh none text = "zh".toList ↔
      (max 1 (pyStrip text).length < 4 * nonAsciiCount (pyStrip text) ∨
       (4 * nonAsciiCount (pyStrip text) ≤ max 1 (pyStrip text).length ∧
        contains_any (pyStrip text) ZH_HINTS = true ∧
        contains_any (pyStrip text) EN_HINTS = false))) ∧
    detect_lang_en_zh none [] = "en".toList := by
  constructor
  · by_cases hr : ratio_non_ascii (pyStrip text) > (1/4 : ℚ)
    · have hn := (ratio_non_ascii_gt_quarter _).mp hr
      simp only [detect_lang_en_zh, hr, if_true]
      simp [hn]
    · have hn : ¬ (max 1 (pyStrip text).length < 4 * nonAsciiCount (pyStrip text)) := by
        rw [← ratio_non_ascii_gt_quarter]
        exact hr
      simp only [detect_lang_en_zh, hr, if_false]
      cases hzh : contains_any (pyStrip text) ZH_HINTS <;>
        cases hen : contains_any (pyStrip text) EN_HINTS <;>
          simp [hzh, hen, hn, Nat.le_of_not_lt hn]
  · have hr : ¬ (ratio_non_ascii (pyStrip ([] : Str)) > (1/4 : ℚ)) := by
      rw [ratio_non_ascii_gt_quarter]
      decide
    simp only [detect_lang_en_zh, hr, if_false]
    decide

-- ===== C4 =====

/-- Claim C4 (counterexample): the claim says an upload whose extension
is neither `pdf` nor `docx` makes extraction fail with a defined error;
on the concrete upload `resume.exe` the code instead silently succeeds,
decoding the bytes as UTF-8 text and returning kind `"txt"`. -/
theorem C4_counterexample :
    parse_resume false ⟨"resume.exe".toList, none, none, .ok [], "hello".toList⟩ false =
      .ok ("hello".toList, "txt") := by
  rfl

/-- Claim C4 (amended): uploads with any other extension are *not*
rejected — the bytes are decoded as UTF-8 (errors ignored) and returned
with kind `"txt"`; extraction never raises for a well-formed empty
document (empty string results for empty `pdf`/`docx`, with OCR off),
and it raises only when the pdf/docx parsing library itself fails on
malformed bytes *or* when the un-guarded OCR pass of a short-text PDF
itself raises (app.py 179-182 wraps no try/except around
`pdf_ocr`). -/
theorem C4_theorem :
    (∀ (hasOCR : Bool) (f : UploadedFile) (u : Bool),
      pyEndsWith (pyLower f.name) (".pdf".toList) = false →
      pyEndsWith (pyLower f.name) (".docx".toList) = false →
      parse_resume hasOCR f u = .ok (f.rawText, "txt")) ∧
    (∀ (hasOCR : Bool) (f : UploadedFile),
      f.pdfPages = some [] →
      pyEndsWith (pyLower f.name) (".pdf".toList) = true →
      parse_resume hasOCR f false = .ok ([], "pdf")) ∧
    (∀ (hasOCR : Bool) (f : UploadedFile) (u : Bool),
      f.docxParas = some [] →
      pyEndsWith (pyLower f.name) (".pdf".toList) = false →
      pyEndsWith (pyLower f.name) (".docx".toList) = true →
      parse_resume hasOCR f u = .ok ([], "docx")) ∧
    (∀ (hasOCR : Bool) (f : UploadedFile) (u : Bool) (e : String),
      parse_resume hasOCR f u = .error e →
      (pyEndsWith (pyLower f.name) (".pdf".toList) = true ∧
        (f.pdfPages = none ∨ pdf_ocr hasOCR f = .error e)) ∨
      (pyEndsWith (pyLower f.name) (".docx".toList) = true ∧ f.docxParas = none)) := by
  refine ⟨?_, ?_, ?_, ?_⟩
  · intro hasOCR f u h1 h2
    unfold parse_resume
    rw [h1, h2]
    simp
  · intro hasOCR f hp h1
    unfold parse_resume read_pdf
    rw [h1, hp]
    simp [joinNl, List.intercalate]
  · intro hasOCR f u hd h1 h2
    unfold parse_resume read_docx
    rw [h1, h2, hd]
    simp [joinNl, List.intercalate]
  · intro hasOCR f u e h
    by_cases h1 : pyEndsWith (pyLower f.name) (".pdf".toList) = true
    · left
      refine ⟨h1, ?_⟩
      cases hp : f.pdfPages with
      | none => exact Or.inl rfl
      | some ps =>
        right
        have hd : read_pdf f = .ok (joinNl (ps.filter (fun t => t ≠ []))) := by
          unfold read_pdf
          rw [hp]
        rw [parse_resume_pdf hasOCR u f _ h1 hd] at h
        generalize hg : joinNl (ps.filter (fun t => t ≠ [])) = direct at h
        by_cases hc : (u && (direct = [] || direct.length < 50)) = true
        · rw [if_pos hc] at h
          cases ho : pdf_ocr hasOCR f with
          | error e2 =>
            simp only [ho] at h
            injection h with he
            rw [he]
          | ok t =>
            simp only [ho] at h
            simp at h
        · rw [if_neg hc] at h
          simp at h
    · right
      unfold parse_resume at h
      rw [Bool.not_eq_true] at h1
      rw [h1] at h
      by_cases h2 : pyEndsWith (pyLower f.name) (".docx".toList) = true
      · refine ⟨h2, ?_⟩
        cases hd : f.docxParas with
        | none => rfl
        | some qs =>
          exfalso
          rw [h2] at h
          unfold read_docx at h
          rw [hd] at h
          simp at h
      · exfalso
        rw [Bool.not_eq_true] at h2
        rw [h2] at h
        simp at h

/-- Claim C4 witness: the amended theorem at concrete uploads — an
unknown extension, an empty PDF, an empty DOCX, a malformed PDF, and a
short-text PDF whose OCR pass raises. -/
theorem C4_witness :
    parse_resume false ⟨"notes.md".toList, none, none, .ok [], "hi".toList⟩ false =
      .ok ("hi".toList, "txt") ∧
    parse_resume false ⟨"empty.pdf".toList, some [], none, .ok [], []⟩ false =
      .ok ([], "pdf") ∧
    parse_resume false ⟨"empty.docx".toList, none, some [], .ok [], []⟩ false =
      .ok ([], "docx") ∧
    ((pyEndsWith (pyLower ("bad.pdf".toList)) (".pdf".toList) = true ∧
      ((⟨"bad.pdf".toList, none, none, .ok [], []⟩ : UploadedFile).pdfPages = none ∨
       pdf_ocr false ⟨"bad.pdf".toList, none, none, .ok [], []⟩ = .error "pdf open failed")) ∨
     (pyEndsWith (pyLower ("bad.pdf".toList)) (".docx".toList) = true ∧
      (⟨"bad.pdf".toList, none, none, .ok [], []⟩ : UploadedFile).docxParas = none)) ∧
    ((pyEndsWith (pyLower ("scan.pdf".toList)) (".pdf".toList) = true ∧
      ((⟨"scan.pdf".toList, some [], none, .error "tesseract is not installed", []⟩ :
          UploadedFile).pdfPages = none ∨
       pdf_ocr true ⟨"scan.pdf".toList, some [], none, .error "tesseract is not installed", []⟩ =
         .error "tesseract is not installed")) ∨
     (pyEndsWith (pyLower ("scan.pdf".toList)) (".docx".toList) = true ∧
      (⟨"scan.pdf".toList, some [], none, .error "tesseract is not installed", []⟩ :
          UploadedFile).docxParas = none)) :=
  ⟨C4_theorem.1 false ⟨"notes.md".toList, none, none, .ok [], "hi".toList⟩ false rfl rfl,
   C4_theorem.2.1 false ⟨"empty.pdf".toList, some [], none, .ok [], []⟩ rfl rfl,
   C4_theorem.2.2.1 false ⟨"empty.docx".toList, none, some [], .ok [], []⟩ false rfl rfl rfl,
   C4_theorem.2.2.2 false ⟨"bad.pdf".toList, none, none, .ok [], []⟩ false
     "pdf open failed" rfl,
   C4_theorem.2.2.2 true ⟨"scan.pdf".toList, some [], none,
     .error "tesseract is not installed", []⟩ true "tesseract is not installed" rfl⟩

-- ===== C5 =====

/-- A list none of whose elements satisfy `p` is unchanged by
`dropWhile p`. -/
theorem dropWhile_eq_self_of (p : Char → Bool) (l : Str)
    (h : ∀ c ∈ l, p c = false) : l.dropWhile p = l := by
  cases l with
  | nil => rfl
  | cons a t =>
    rw [List.dropWhile_cons, h a (by simp)]
    simp

/-- `rstrip` is the identity on whitespace-free text. -/
theorem rstrip_eq_self (l : Str) (h : ∀ c ∈ l, pyIsSpace c = false) :
    pyRstrip l = l := by
  unfold pyRstrip
  rw [dropWhile_eq_self_of pyIsSpace l.reverse (fun c hc => h c (List.mem_reverse.mp hc))]
  simp

/-- The markdown pattern only matches at a star. -/
theorem mdMatchAt_not_star (c : Char) (rest : Str) (h : ¬ c = '*') :
    mdMatchAt (c :: rest) = none := by
  simp [mdMatchAt, h]

/-- On star-free text the token scan yields one plain text token. -/
theorem mdScan_no_star (cs : Str) : ∀ (acc : Str), (∀ c ∈ cs, ¬ c = '*') →
    mdScanAux acc cs =
      if acc = [] ∧ cs = [] then [] else [.text (acc.reverse ++ cs)] := by
  induction cs with
  | nil =>
    intro acc h
    by_cases ha : acc = [] <;> simp [mdScanAux, ha]
  | cons c rest ih =>
    intro acc h
    have hm : mdMatchAt (c :: rest) = none := mdMatchAt_not_star _ _ (h c (by simp))
    rw [mdScanAux]
    split
    · rename_i m r heq
      rw [hm] at heq
      cases heq
    · rw [ih (c :: acc) (fun x hx => h x (by simp [hx]))]
      simp

/-- A Latin letter or CJK ideograph is not whitespace, not a markdown
or list marker character, and not a digit. -/
theorem good_char_facts (c : Char)
    (h : isLatinLetter c = true ∨ isCJKChar c = true) :
    pyIsSpace c = false ∧ ¬ c = '*' ∧ ¬ c = '#' ∧ ¬ c = '-' ∧ ¬ c = '•' ∧ ¬ c = '·' ∧
    isDigitCh c = false := by
  have hn : (65 ≤ c.toNat ∧ c.toNat ≤ 90) ∨ (97 ≤ c.toNat ∧ c.toNat ≤ 122) ∨
      (0x4E00 ≤ c.toNat ∧ c.toNat ≤ 0x9FFF) := by
    rcases h with h | h
    · simp only [isLatinLetter, Bool.or_eq_true, Bool.and_eq_true, decide_eq_true_eq] at h
      tauto
    · simp only [isCJKChar, Bool.and_eq_true, decide_eq_true_eq] at h
      tauto
  refine ⟨?_, ?_, ?_, ?_, ?_, ?_, ?_⟩
  · simp only [pyIsSpace, Bool.or_eq_false_iff, Bool.and_eq_false_iff, beq_eq_false_iff_ne,
      ne_eq, decide_eq_false_iff_not]
    rcases hn with h1 | h1 | h1 <;> omega
  · intro hc; subst hc; exact absurd hn (by decide)
  · intro hc; subst hc; exact absurd hn (by decide)
  · intro hc; subst hc; exact absurd hn (by decide)
  · intro hc; subst hc; exact absurd hn (by decide)
  · intro hc; subst hc; exact absurd hn (by decide)
  · simp only [isDigitCh, Bool.and_eq_false_iff, decide_eq_false_iff_not]
    rcases hn with h1 | h1 | h1 <;> omega

/-- The unordered-list regex does not match a line whose first
character is no whitespace and no bullet. -/
theorem bulletBody_none (c : Char) (rest : Str)
    (hs : pyIsSpace c = false) (h1 : ¬ c = '-') (h2 : ¬ c = '•') (h3 : ¬ c = '·') :
    bulletBody (c :: rest) = none := by
  unfold bulletBody
  rw [List.dropWhile_cons, hs]
  simp [h1, h2, h3]

/-- The ordered-list regex does not match a line whose first character
is no whitespace and no digit. -/
theorem numberBody_none (c : Char) (rest : Str)
    (hs : pyIsSpace c = false) (hd : isDigitCh c = false) :
    numberBody (c :: rest) = none := by
  unfold numberBody
  rw [List.dropWhile_cons, hs]
  simp [List.takeWhile_cons, hd]

/-- A heading marker is not a prefix of a line that does not start with
`#`. -/
theorem not_prefix_hash (pre : Str) (c : Char) (rest : Str) (h : ¬ c = '#') :
    (('#' :: pre).isPrefixOf (c :: rest)) = false := by
  have hbe : ('#' == c) = false := by
    simp only [beq_eq_false_iff_ne, ne_eq]
    exact fun hc => h hc.symm
  simp [List.isPrefixOf, hbe]

/-- One line made only of Latin letters and CJK ideographs renders to a
paragraph whose text is the line itself. -/
theorem line_roundtrip (l : Str)
    (h : ∀ c ∈ l, isLatinLetter c = true ∨ isCJKChar c = true) :
    paraText (add_paragraph_by_markdown_line l) = l := by
  cases l with
  | nil => rfl
  | cons c rest =>
    have hgood := fun (x : Char) (hx : x ∈ c :: rest) => good_char_facts x (h x hx)
    have hsp : ∀ x ∈ c :: rest, pyIsSpace x = false := fun x hx => (hgood x hx).1
    have hrs : pyRstrip (c :: rest) = c :: rest := rstrip_eq_self _ hsp
    have hcfacts := hgood c (by simp)
    unfold add_paragraph_by_markdown_line
    rw [hrs]
    rw [if_neg (by simp)]
    rw [if_neg (by
      rw [show ("## ".toList) = '#' :: '#' :: [' '] from rfl,
        not_prefix_hash _ _ _ hcfacts.2.2.1]
      simp)]
    rw [if_neg (by
      rw [show ("# ".toList) = '#' :: [' '] from rfl,
        not_prefix_hash _ _ _ hcfacts.2.2.1]
      simp)]
    rw [bulletBody_none c rest hcfacts.1 hcfacts.2.2.2.1 hcfacts.2.2.2.2.1
      hcfacts.2.2.2.2.2.1]
    rw [numberBody_none c rest hcfacts.1 hcfacts.2.2.2.2.2.2]
    unfold paraText add_markdown_runs
    rw [mdScan_no_star (c :: rest) [] (fun x hx => (hgood x hx).2.1)]
    simp

/-- Every character of every line of the newline split is a character
of the input other than the newline. -/
theorem splitNlAux_chars (cs : Str) : ∀ (cur : Str),
    (∀ c ∈ cur, isLatinLetter c = true ∨ isCJKChar c = true) →
    (∀ c ∈ cs, isLatinLetter c = true ∨ isCJKChar c = true ∨ c = '\n') →
    ∀ l ∈ splitNlAux cur cs, ∀ c ∈ l, isLatinLetter c = true ∨ isCJKChar c = true := by
  induction cs with
  | nil =>
    intro cur hcur _ l hl c hc
    rw [splitNlAux] at hl
    by_cases hc0 : cur = []
    · rw [if_pos hc0] at hl
      simp at hl
    · rw [if_neg hc0] at hl
      simp at hl
      subst hl
      exact hcur c (List.mem_reverse.mp hc)
  | cons d rest ih =>
    intro cur hcur hcs l hl c hc
    rw [splitNlAux] at hl
    by_cases hd : d = '\n'
    · rw [if_pos hd] at hl
      rcases List.mem_cons.mp hl with hl | hl
      · subst hl
        exact hcur c (List.mem_reverse.mp hc)
      · exact ih [] (by simp) (fun x hx => hcs x (by simp [hx])) l hl c hc
    · rw [if_neg hd] at hl
      refine ih (d :: cur) ?_ (fun x hx => hcs x (by simp [hx])) l hl c hc
      intro x hx
      rcases List.mem_cons.mp hx with hx | hx
      · subst hx
        rcases hcs x (by simp) with hg | hg | hg
        · exact Or.inl hg
        · exact Or.inr hg
        · exact absurd hg hd
      · exact hcur x hx

/-- Claim C5: for text consisting of CJK and Latin characters (and
newlines), decoding the DOCX produced by `export_docx_rich` back into
plain paragraphs reconstructs the original line sequence exactly — no
character corruption, insertion or truncation.  (The hypothesis
excludes markdown marker characters, which the exporter interprets;
letters and ideographs pass through verbatim.) -/
theorem C5_theorem (text : Str)
    (h : ∀ c ∈ text, isLatinLetter c = true ∨ isCJKChar c = true ∨ c = '\n') :
    docLines (export_docx_rich text none) = pySplitlines text := by
  unfold export_docx_rich docLines
  simp only [List.nil_append, List.map_map]
  have hmap : ∀ l ∈ pySplitlines text,
      (paraText ∘ add_paragraph_by_markdown_line) l = id l := by
    intro l hl
    exact line_roundtrip l (splitNlAux_chars text [] (by simp) h l hl)
  rw [List.map_congr_left hmap, List.map_id]

/-- Claim C5 witness: a concrete mixed CJK/Latin text with an empty
line round-trips to its exact line sequence. -/
theorem C5_witness :
    docLines (export_docx_rich ("Hello\n简历\n\nWorld".toList) none) =
      pySplitlines ("Hello\n简历\n\nWorld".toList) ∧
    pySplitlines ("Hello\n简历\n\nWorld".toList) =
      ["Hello".toList, "简历".toList, [], "World".toList] :=
  ⟨C5_theorem _ (by decide), by decide⟩


-- ===== C6 =====

/-- Claim C6: for a PDF upload whose OCR pass yields output `ocr`, when
OCR is requested and the direct extraction is empty or under the
50-character threshold, that OCR output replaces the direct result
exactly when it is strictly longer; otherwise (threshold met, or OCR
not requested) the direct extraction result — possibly empty — is
returned. -/
theorem C6_theorem (hasOCR : Bool) (f : UploadedFile) (pages : List Str) (ocr : Str)
    (hname : pyEndsWith (pyLower f.name) (".pdf".toList) = true)
    (hp : f.pdfPages = some pages)
    (hocr : pdf_ocr hasOCR f = .ok ocr) :
    ((joinNl (pages.filter (fun t => t ≠ [])) = [] ∨
      (joinNl (pages.filter (fun t => t ≠ []))).length < 50) →
      parse_resume hasOCR f true =
        .ok ((if (joinNl (pages.filter (fun t => t ≠ []))).length < ocr.length
              then ocr
              else joinNl (pages.filter (fun t => t ≠ []))), "pdf")) ∧
    (¬ (joinNl (pages.filter (fun t => t ≠ [])) = [] ∨
        (joinNl (pages.filter (fun t => t ≠ []))).length < 50) →
      parse_resume hasOCR f true = .ok (joinNl (pages.filter (fun t => t ≠ [])), "pdf")) ∧
    parse_resume hasOCR f false = .ok (joinNl (pages.filter (fun t => t ≠ [])), "pdf") := by
  have hd : read_pdf f = .ok (joinNl (pages.filter (fun t => t ≠ []))) := by
    unfold read_pdf
    rw [hp]
  have heq1 := parse_resume_pdf hasOCR true f _ hname hd
  have heq0 := parse_resume_pdf hasOCR false f _ hname hd
  simp only [hocr] at heq1
  generalize hg : joinNl (pages.filter (fun t => t ≠ [])) = direct at heq1 heq0 ⊢
  refine ⟨?_, ?_, ?_⟩
  · intro h
    rw [heq1]
    by_cases ho : ocr = []
    · rcases h with h | h <;> simp [h, ho]
    · rcases h with h | h <;> simp [h, ho]
  · intro h
    push_neg at h
    rw [heq1]
    have h2 : ¬ (direct.length < 50) := Nat.not_lt.mpr h.2
    simp [h.1, h2]
  · rw [heq0]
    simp

set_option maxRecDepth 8192 in
/-- Claim C6 witness (end-to-end scenario C): a PDF whose direct
extraction yields 10 characters while OCR yields 500 — the final
extracted text is the 500-character OCR output. -/
theorem C6_witness :
    parse_resume true ⟨"scan.pdf".toList, some ["abcdefghij".toList], none,
      .ok [List.replicate 500 'x'], []⟩ true = .ok (List.replicate 500 'x', "pdf") := by
  have h := (C6_theorem true ⟨"scan.pdf".toList, some ["abcdefghij".toList], none,
      .ok [List.replicate 500 'x'], []⟩ ["abcdefghij".toList] (List.replicate 500 'x')
      rfl rfl rfl).1 (Or.inr (by decide))
  rw [h]
  rfl

-- ===== C7 =====

/-- Claim C7: the final user message of the resume-optimization prompt
carries the extracted resume text verbatim and unabridged as a
substring — the message content is literally
`"Resume:\n" ++ resumeText ++ "\n\nTarget JD:\n" ++ jd`. -/
theorem C7_theorem (lang : String) (pills : List String) (enhance jd resumeText : String)
    (h : resumeText ≠ "") :
    (buildMessages lang pills enhance jd resumeText).getLast? =
      some ⟨"user", resumeUserContent jd resumeText⟩ ∧
    ∃ pre post : List Char,
      (resumeUserContent jd resumeText).data = pre ++ resumeText.data ++ post := by
  refine ⟨rfl, ("Resume:\n").data, ("\n\nTarget JD:\n" ++ pyOrEmpty jd).data, ?_⟩
  simp [resumeUserContent, String.data_append]

/-- Claim C7 witness: containment at a concrete request. -/
theorem C7_witness :
    ("My resume" : String) ≠ "" ∧
    ((buildMessages "en" [] "" "" "My resume").getLast? =
      some ⟨"user", resumeUserContent "" "My resume"⟩ ∧
     ∃ pre post : List Char,
       (resumeUserContent "" "My resume").data = pre ++ ("My resume" : String).data ++ post) :=
  ⟨by decide, C7_theorem "en" [] "" "" "My resume" (by decide)⟩

-- ===== C8 =====

/-- Claim C8: with the cover-letter box unticked the handler produces an
empty cover letter and performs exactly one model invocation — the
resume one; no second call is made for a cover letter. -/
theorem C8_theorem (model : ModelOracle) (lang : String) (pills : List String)
    (enhance jd resumeText : String) :
    (runGeneration model ⟨false, lang, pills, enhance, jd, resumeText⟩).optCl = "" ∧
    countModelCalls
      (runGeneration model ⟨false, lang, pills, enhance, jd, resumeText⟩).trace = 1 := by
  unfold runGeneration
  cases h : call_openai model (buildMessages lang pills enhance jd resumeText) with
  | error e => simp [h, countModelCalls]
  | ok s => simp [h, countModelCalls]

-- ===== C9 =====

/-- Claim C9: every logging-sink call returns normally — for any
worksheet availability and any behavior of the underlying append
operation, `log_event`, `log_feedback`, `log_error` and `log_quota` all
produce an `.ok` result (failures become at most a sidebar warning),
so no logging failure propagates to the caller. -/
theorem C9_theorem :
    (∀ ws ts sid et ue ej, ∃ w, log_event ws ts sid et ue ej = .ok w) ∧
    (∀ ws ts sid r cm ct, ∃ w, log_feedback ws ts sid r cm ct = .ok w) ∧
    (∀ ws ts sid em cj, ∃ w, log_error ws ts sid em cj = .ok w) ∧
    (∀ ws ts sid et it ot, ∃ w, log_quota ws ts sid et it ot = .ok w) := by
  refine ⟨?_, ?_, ?_, ?_⟩
  · intro ws ts sid et ue ej
    unfold log_event
    split
    · exact ⟨[], rfl⟩
    · split
      · exact ⟨[], rfl⟩
      · exact ⟨_, rfl⟩
  · intro ws ts sid r cm ct
    unfold log_feedback
    split
    · exact ⟨[], rfl⟩
    · split
      · exact ⟨[], rfl⟩
      · exact ⟨_, rfl⟩
  · intro ws ts sid em cj
    unfold log_error
    split
    · exact ⟨[], rfl⟩
    · split
      · exact ⟨[], rfl⟩
      · exact ⟨[], rfl⟩
  · intro ws ts sid et it ot
    unfold log_quota
    split
    · exact ⟨[], rfl⟩
    · split
      · exact ⟨[], rfl⟩
      · exact ⟨[], rfl⟩

end ResumeApp
